import Mathlib

/-!
Verification of the solicitudes-service repository (a FastAPI backend for
blood-donation requests). This file shallowly embeds the data model, the
auth-delegation service (`app/services/auth_service.py`), the dependency
wrappers (`app/api/dependencies.py`) and the vet endpoints
(`app/api/v1/endpoints/solicitudes/vet/get.py`, `.../vet/post.py`) as pure
Lean functions, and proves / refutes the specification claims about them.

External collaborators (the document store, the remote auth service, the
image host) are modelled by explicit outcome parameters; the repository
files that only declare schemas or constants (`app/schemas/*.py`,
`app/constants/solicitudes.py`, `app/models/solicitud_mongo.py`,
`app/services/cloudinary_service.py`) are not present in the sources and
are modelled from the spec where a claim needs them.
-/

namespace SolicitudesService

/-- An HTTP error as raised by `fastapi.HTTPException`: a status code, a
detail message, and (for 422 validation responses, whose detail is a dict
with a message and an error list) the list of field errors. -/
structure HttpError where
  status : Nat
  detail : String
  errors : List String := []
deriving DecidableEq, Repr

/-- `app/schemas/auth.py` is not among the sources. Modelled from the spec:
"AuthenticatedUser: identifier, email, user type (owner|clinic), derived
per-request from a bearer token plus a client-supplied type header". -/
structure AuthenticatedUser where
  id : String
  email : String
  userType : String
deriving DecidableEq, Repr

/-- `app/schemas/auth.py` is not among the sources. Modelled from the spec:
the user type enum with exactly the two fixed values owner and clinic
(a Python str-enum, so membership tests compare the string values). -/
inductive UserType where
  | OWNER
  | CLINIC
deriving DecidableEq, Repr

/-- The string value of a `UserType` member (Python str-enum `.value`). -/
def UserType.value : UserType → String
  | .OWNER => "owner"
  | .CLINIC => "clinic"

/-- The profile JSON blob returned by the remote auth service on success.
The spec treats that service as an external collaborator returning "a user
profile JSON blob"; `get_current_user` reads `user_profile["id"]` and
`user_profile.get("email", "user@example.com")`, so the model keeps the
identifier and an optional email. -/
structure UserProfile where
  id : String
  email? : Option String
deriving DecidableEq, Repr

/-- Outcome of the single outbound HTTP GET to the remote auth service
(an external collaborator, so its behaviour is a parameter):
* `ok p` — status 200 and the body parses to the profile `p`;
* `okBadJson` — status 200 but `response.json()` raises;
* `nonOk c` — an HTTP response with status code `c ≠ 200`;
* `requestError` — `httpx.RequestError` (connection failure, timeout). -/
inductive AuthCallOutcome where
  | ok (p : UserProfile)
  | okBadJson
  | nonOk (c : Nat)
  | requestError
deriving DecidableEq, Repr

/-- A Python exception escaping the `try` body of
`get_user_profile_from_token`: the `HTTPException` the body itself raises,
an `httpx.RequestError` from the client call, or any other exception
(e.g. a JSON decode error). -/
inductive PyExc where
  | httpExc (e : HttpError)
  | requestError
  | otherExc
deriving DecidableEq, Repr

/-- The `try` body of `AuthService.get_user_profile_from_token`
(`auth_service.py` lines 24-42): perform the GET; on a 200 response return
`response.json()`; otherwise raise `HTTPException(401, "Token inválido o
expirado")`. A failing `response.json()` raises a non-HTTP exception; the
client call itself may raise `httpx.RequestError`. -/
def profileTryBody (call : AuthCallOutcome) : Except PyExc UserProfile :=
  match call with
  | .ok p => .ok p
  | .okBadJson => .error .otherExc
  | .nonOk _ => .error (.httpExc ⟨401, "Token inválido o expirado", []⟩)
  | .requestError => .error .requestError

/-- `AuthService.get_user_profile_from_token` (`auth_service.py` lines
10-55): the `try` body above followed by the two `except` clauses, in
order: `except httpx.RequestError` raises `HTTPException(503)`, and
`except Exception` — which also catches the `HTTPException(401)` raised
inside the `try` body, since `HTTPException` subclasses `Exception` and is
not an `httpx.RequestError` — raises `HTTPException(500)`. -/
def get_user_profile_from_token (call : AuthCallOutcome) : Except HttpError UserProfile :=
  match profileTryBody call with
  | .ok p => .ok p
  | .error .requestError =>
      .error ⟨503, "Servicio de autenticación no disponible", []⟩
  | .error _ =>
      .error ⟨500, "Error interno del servidor de autenticación", []⟩

/-- `AuthService.get_current_user` (`auth_service.py` lines 57-108).
`user_type?` is the `X-User-Type` header (`None` when absent); `call` is
the outcome of the outbound profile request. A missing header defaults to
"clinic"; a header outside owner/clinic raises 400; then the profile is
fetched and the `AuthenticatedUser` is built from it, with email defaulted
to "user@example.com". -/
def get_current_user (user_type? : Option String) (call : AuthCallOutcome) :
    Except HttpError AuthenticatedUser :=
  let user_type := user_type?.getD "clinic"
  if user_type ∈ ["owner", "clinic"] then
    match get_user_profile_from_token call with
    | .ok profile => .ok ⟨profile.id, profile.email?.getD "user@example.com", user_type⟩
    | .error e => .error e
  else
    .error ⟨400, "userType inválido. Debe ser owner o clinic", []⟩

/-- `AuthService.get_current_user_id` (`auth_service.py` lines 137-170):
same header handling as `get_current_user`, but returns only the profile
identifier. -/
def get_current_user_id (user_type? : Option String) (call : AuthCallOutcome) :
    Except HttpError String :=
  let user_type := user_type?.getD "clinic"
  if user_type ∈ ["owner", "clinic"] then
    match get_user_profile_from_token call with
    | .ok profile => .ok profile.id
    | .error e => .error e
  else
    .error ⟨400, "userType inválido. Debe ser owner o clinic", []⟩

/-- `AuthService.verify_user_type` (`auth_service.py` lines 172-192):
raises `HTTPException(403)` when the user type is not among the allowed
types, returns `True` otherwise. -/
def verify_user_type (user : AuthenticatedUser) (allowed_types : List UserType) :
    Except HttpError Bool :=
  if user.userType ∈ allowed_types.map UserType.value then
    .ok true
  else
    .error ⟨403, "Acceso denegado. Se requiere uno de los siguientes tipos: " ++
      String.intercalate ", " (allowed_types.map UserType.value), []⟩

/-- `get_current_user_clinic` (`dependencies.py` lines 15-22): resolve
`get_current_user`, then `verify_user_type(current_user, [UserType.CLINIC])`. -/
def get_current_user_clinic (user_type? : Option String) (call : AuthCallOutcome) :
    Except HttpError AuthenticatedUser :=
  match get_current_user user_type? call with
  | .error e => .error e
  | .ok current_user =>
      match verify_user_type current_user [UserType.CLINIC] with
      | .error e => .error e
      | .ok _ => .ok current_user

/-- `get_current_user_id_clinic` (`dependencies.py` lines 24-31): it only
resolves `AuthService.get_current_user_id` and returns its result; no
clinic-specific check is performed (the source comment claims the user
type validation is already handled there). -/
def get_current_user_id_clinic (user_type? : Option String) (call : AuthCallOutcome) :
    Except HttpError String :=
  get_current_user_id user_type? call

/-- `app/schemas/solicitud.py` is not among the sources. Modelled from the
spec: "DonationRequest: identifier, clinic name, pet name, species,
locality, free-text description, address, contact, minimum weight, blood
type, creation timestamp, urgency level, status (one of a fixed small
enum), optional photo URL" — the field names and types follow the endpoint
response examples in `vet/get.py` and `vet/post.py`. The minimum weight is
a Python float only carried through, never computed with; it is modelled
as a rational. The owning clinic identifier is kept separately as the
document-store key. -/
structure Solicitud where
  id : String
  nombre_veterinaria : String
  nombre_mascota : String
  especie : String
  localidad : String
  descripcion_solicitud : String
  direccion : String
  ubicacion : String
  contacto : String
  peso_minimo : Rat
  tipo_sangre : String
  fecha_creacion : String
  urgencia : String
  estado : String
  foto_mascota : Option String
deriving DecidableEq, Repr

/-- The document store: a list of (owning clinic identifier, solicitud)
pairs. The store itself is an external collaborator ("a managed database
accessed via simple filter queries"). -/
abbrev DB := List (String × Solicitud)

/-- Modelled from the spec: `SolicitudMongoModel.get_solicitudes_by_owner`
(`app/models/solicitud_mongo.py` is not among the sources) — "query a
document store by owner ID": all solicitudes whose owning identifier
equals `ownerId`. -/
def get_solicitudes_by_owner (db : DB) (ownerId : String) : List Solicitud :=
  (List.filter (fun p => p.1 = ownerId) db).map (fun p => p.2)

/-- Modelled from the spec:
`SolicitudMongoModel.get_solicitud_by_id_and_owner` — lookup by
(solicitud id, owner ID); yields the first match, or nothing. -/
def get_solicitud_by_id_and_owner (db : DB) (solicitud_id : String) (ownerId : String) :
    Option Solicitud :=
  (List.find? (fun p => p.1 = ownerId ∧ p.2.id = solicitud_id) db).map (fun p => p.2)

/-- Does a stored solicitud pass one of the optional comma-separated
filters of the filter endpoint? `none` imposes no constraint; a supplied
string is split on commas and the field must equal one of the parts
(the endpoint docstring: "Múltiples valores separados por coma"). -/
def matchesFilter (value : String) (filter? : Option String) : Bool :=
  match filter? with
  | none => true
  | some f => value ∈ f.splitOn ","

/-- Modelled from the spec:
`SolicitudMongoModel.filter_solicitudes_by_owner_and_status` — "query a
document store by owner ID and equality filters": solicitudes of the
given owner whose fields pass every supplied filter; `estado = none`
imposes no status constraint (a single value, not comma-separated). -/
def filter_solicitudes_by_owner_and_status (db : DB) (owner_id : String)
    (estado? especie? tipo_sangre? urgencia? localidad? : Option String) : List Solicitud :=
  (get_solicitudes_by_owner db owner_id).filter (fun s =>
    (match estado? with | none => true | some e => s.estado = e) &&
    matchesFilter s.especie especie? &&
    matchesFilter s.tipo_sangre tipo_sangre? &&
    matchesFilter s.urgencia urgencia? &&
    matchesFilter s.localidad localidad?)

/-- Modelled from the spec:
`SolicitudMongoModel.create_solicitud_with_owner` — stores the solicitud
associated to the given owner and returns it. -/
def create_solicitud_with_owner (db : DB) (solicitud : Solicitud) (ownerId : String) :
    Solicitud × DB :=
  (solicitud, db ++ [(ownerId, solicitud)])

/-- Python whitespace, the set stripped by `str.strip()`. -/
def isPyWhitespace (c : Char) : Bool :=
  c = ' ' || c = '\t' || c = '\n' || c = '\r' || c = '\x0b' || c = '\x0c'

/-- Python `str.strip()`: remove leading and trailing whitespace. -/
def pyStrip (s : String) : String :=
  ⟨((s.data.dropWhile isPyWhitespace).reverse.dropWhile isPyWhitespace).reverse⟩

/-- Python `str.title()` on ASCII text, character by character: a letter
after a non-letter is uppercased, a letter after a letter is lowercased,
non-letters pass through. The boolean carries whether the previous
character was a letter. -/
def pyTitleAux : List Char → Bool → List Char
  | [], _ => []
  | c :: cs, prevCased =>
    if c.isAlpha then
      (if prevCased then c.toLower else c.toUpper) :: pyTitleAux cs true
    else
      c :: pyTitleAux cs false

/-- Python `str.title()` (ASCII). -/
def pyTitle (s : String) : String :=
  ⟨pyTitleAux s.data false⟩

/-- `get_all_solicitudes` (`vet/get.py` lines 53-66): resolve the
clinic-only dependency, then return all solicitudes of the authenticated
user. -/
def get_all_solicitudes (db : DB) (user_type? : Option String) (call : AuthCallOutcome) :
    Except HttpError (List Solicitud) :=
  match get_current_user_clinic user_type? call with
  | .error e => .error e
  | .ok current_user => .ok (get_solicitudes_by_owner db current_user.id)

/-- `get_solicitudes_by_status` (`vet/get.py` lines 118-201), over the
permitted status list `ESTADOS_PERMITIDOS` (declared in
`app/constants/solicitudes.py`, not among the sources, so kept as a
parameter). Python lines 169-191: when `estado` is supplied and nonempty
after stripping, it is title-cased; if the normalized form is not
permitted an error detail is collected and a 422 is raised before any
store query; otherwise the normalized form is used. An absent, empty or
whitespace-only `estado` becomes `None`. Then the store is queried with
the authenticated user id and the filters. -/
def get_solicitudes_by_status (db : DB) (ESTADOS_PERMITIDOS : List String)
    (user_type? : Option String) (call : AuthCallOutcome)
    (estado? especie? tipo_sangre? urgencia? localidad? : Option String) :
    Except HttpError (List Solicitud) :=
  match get_current_user_clinic user_type? call with
  | .error e => .error e
  | .ok current_user =>
    let checked : Option String × List String :=
      match estado? with
      | some estado =>
        if estado ≠ "" ∧ pyStrip estado ≠ "" then
          let estado_normalizado := pyTitle estado
          if estado_normalizado ∈ ESTADOS_PERMITIDOS then
            (some estado_normalizado, [])
          else
            (some estado, ["estado: Estado inválido. Los estados válidos son: " ++
              String.intercalate ", " ESTADOS_PERMITIDOS])
        else
          (none, [])
      | none => (none, [])
    let error_details := checked.2
    if error_details ≠ [] then
      .error ⟨422, "Error de validación en los parámetros de filtro", error_details⟩
    else
      .ok (filter_solicitudes_by_owner_and_status db current_user.id
        checked.1 especie? tipo_sangre? urgencia? localidad?)

/-- `get_solicitud_by_id` (`vet/get.py` lines 251-274): resolve the
clinic-only dependency, look the solicitud up by (id, user id), raise 404
when nothing is found, return it otherwise. -/
def get_solicitud_by_id (db : DB) (solicitud_id : String)
    (user_type? : Option String) (call : AuthCallOutcome) : Except HttpError Solicitud :=
  match get_current_user_clinic user_type? call with
  | .error e => .error e
  | .ok current_user =>
    match get_solicitud_by_id_and_owner db solicitud_id current_user.id with
    | none => .error ⟨404, "Solicitud no encontrada", []⟩
    | some solicitud => .ok solicitud

/-- The form fields of the create endpoint (`vet/post.py` lines 84-95),
already past FastAPI form parsing. -/
structure SolicitudForm where
  nombre_veterinaria : String
  nombre_mascota : String
  especie : String
  localidad : String
  descripcion_solicitud : String
  direccion : String
  ubicacion : String
  contacto : String
  peso_minimo : Rat
  tipo_sangre : String
  urgencia : String
deriving DecidableEq, Repr

/-- Outcome of `upload_image` (`app/services/cloudinary_service.py`, the
external image host, not among the sources): the returned URL, or the
message of the exception it raised. -/
inductive UploadOutcome where
  | ok (url : String)
  | err (msg : String)
deriving DecidableEq, Repr

/-- `create_solicitud` (`vet/post.py` lines 82-156). Parameters standing
for the effects of external collaborators:
* `validation` — outcome of constructing `SolicitudCreateWithImage`
  (`app/schemas/solicitud.py` is not among the sources; modelled from the
  spec, the declarative field-validation layer is out of scope, so its
  verdict is supplied: an error list of "field: message" strings on
  `ValidationError`). The modelled schema holds exactly the eleven form
  fields and no status field — the spec has the status "always created as
  Active", so `model_dump()` cannot override it in the dict merge;
* `foto?` — `None` when no file was supplied, otherwise the outcome of
  the `upload_image` call on it;
* `solicitud_id` — the generated `secrets.token_hex(12)`;
* `now` — `datetime.now().isoformat()`.
The FastAPI dependency `get_current_user_id_clinic` resolves before the
body runs. The returned pair is (the HTTP outcome, the resulting store):
the store is unchanged on every error path. The final dict
`{id, fecha_creacion, estado: "Activa", foto_mascota, **model_dump()}`
merges disjoint keys, so it is built as one record here. -/
def create_solicitud (db : DB) (user_type? : Option String) (call : AuthCallOutcome)
    (form : SolicitudForm) (validation : Except (List String) Unit)
    (foto? : Option UploadOutcome) (solicitud_id : String) (now : String) :
    Except HttpError Solicitud × DB :=
  match get_current_user_id_clinic user_type? call with
  | .error e => (.error e, db)
  | .ok current_user_id =>
    match validation with
    | .error error_details =>
        (.error ⟨422, "Error de validación en los datos de la solicitud", error_details⟩, db)
    | .ok _ =>
      match foto? with
      | some (.err msg) =>
          (.error ⟨400, "Error al subir la imagen: " ++ msg, []⟩, db)
      | _ =>
        let foto_url : Option String :=
          match foto? with
          | some (.ok url) => some url
          | _ => none
        let nueva_solicitud : Solicitud :=
          { id := solicitud_id
            nombre_veterinaria := form.nombre_veterinaria
            nombre_mascota := form.nombre_mascota
            especie := form.especie
            localidad := form.localidad
            descripcion_solicitud := form.descripcion_solicitud
            direccion := form.direccion
            ubicacion := form.ubicacion
            contacto := form.contacto
            peso_minimo := form.peso_minimo
            tipo_sangre := form.tipo_sangre
            fecha_creacion := now
            urgencia := form.urgencia
            estado := "Activa"
            foto_mascota := foto_url }
        let created := create_solicitud_with_owner db nueva_solicitud current_user_id
        (.ok created.1, created.2)

/-! Concrete sample values used by witnesses and counterexamples. -/

/-- A profile of a clinic user, as returned by the remote auth service. -/
def clinicProfile : UserProfile := ⟨"user_123", some "vet@example.com"⟩

/-- A profile of a pet-owner user. -/
def ownerProfile : UserProfile := ⟨"owner_1", none⟩

/-- A valid create form. -/
def sampleForm : SolicitudForm :=
  ⟨"AnimalCare", "Canela", "Perro", "Usaquén",
   "Canela está anémica y necesita una transfusión urgente.",
   "Av. 19 #120-56", "Usaquén, Bogotá", "+57 301 234 5678",
   18, "DEA 1.1+", "Alta"⟩

/-- The solicitud the create endpoint builds from `sampleForm` with id
"a1b2c3", timestamp "2025-01-01T00:00:00" and no photo. -/
def sampleCreated : Solicitud :=
  ⟨"a1b2c3", "AnimalCare", "Canela", "Perro", "Usaquén",
   "Canela está anémica y necesita una transfusión urgente.",
   "Av. 19 #120-56", "Usaquén, Bogotá", "+57 301 234 5678",
   18, "DEA 1.1+", "2025-01-01T00:00:00", "Alta", "Activa", none⟩

/-! The claims. -/

/-- C8. The user-type invariant holds at the authentication boundary:
`get_current_user` either fails or returns a user whose `userType` is one
of exactly "owner" and "clinic", and a supplied `X-User-Type` header value
outside these two is rejected with HTTP 400. -/
theorem user_type_invariant :
    (∀ (user_type? : Option String) (call : AuthCallOutcome) (u : AuthenticatedUser),
      get_current_user user_type? call = .ok u →
      u.userType = "owner" ∨ u.userType = "clinic") ∧
    (∀ (s : String) (call : AuthCallOutcome), s ∉ (["owner", "clinic"] : List String) →
      get_current_user (some s) call =
        .error ⟨400, "userType inválido. Debe ser owner o clinic", []⟩) := by
  constructor
  · intro user_type? call u h
    unfold get_current_user at h
    simp only [Option.getD] at h
    split at h
    · next hmem =>
        split at h
        · next profile hp => cases h; simpa using hmem
        · exact Except.noConfusion h
    · exact Except.noConfusion h
  · intro s call hs
    unfold get_current_user
    simp only [Option.getD_some]
    rw [if_neg hs]

/-- C8 witness: the invariant applied at a concrete header and call. -/
theorem user_type_invariant_witness :
    ((⟨"user_123", "vet@example.com", "owner"⟩ : AuthenticatedUser).userType = "owner" ∨
     (⟨"user_123", "vet@example.com", "owner"⟩ : AuthenticatedUser).userType = "clinic") ∧
    get_current_user (some "admin") (.ok clinicProfile) =
      .error ⟨400, "userType inválido. Debe ser owner o clinic", []⟩ :=
  ⟨user_type_invariant.1 (some "owner") (.ok clinicProfile)
      ⟨"user_123", "vet@example.com", "owner"⟩ rfl,
   user_type_invariant.2 "admin" (.ok clinicProfile) (by decide)⟩

/-- C9. A missing `X-User-Type` header is silently defaulted to "clinic"
in both `get_current_user` and `get_current_user_id`: a request with a
valid token and no header is authenticated as a clinic-type user. -/
theorem missing_header_defaults_to_clinic :
    (∀ call, get_current_user none call = get_current_user (some "clinic") call) ∧
    (∀ call, get_current_user_id none call = get_current_user_id (some "clinic") call) ∧
    (∀ p : UserProfile, get_current_user none (.ok p) =
      .ok ⟨p.id, p.email?.getD "user@example.com", "clinic"⟩) ∧
    (∀ p : UserProfile, get_current_user_id none (.ok p) = .ok p.id) :=
  ⟨fun _ => rfl, fun _ => rfl, fun _ => rfl, fun _ => rfl⟩

/-- C2 (divergence witness). The auth-delegation call has four outcomes,
none of them a 401: the profile on a 200 response with well-formed JSON,
503 on a connection error, and 500 both on a non-200 response — the
`HTTPException(401)` raised in the `try` body is caught by the trailing
`except Exception` and replaced by a 500 — and on a 200 response whose
body fails to parse. -/
theorem auth_profile_outcomes :
    (∀ p, get_user_profile_from_token (.ok p) = .ok p) ∧
    (get_user_profile_from_token .requestError =
      .error ⟨503, "Servicio de autenticación no disponible", []⟩) ∧
    (∀ c, get_user_profile_from_token (.nonOk c) =
      .error ⟨500, "Error interno del servidor de autenticación", []⟩) ∧
    (get_user_profile_from_token .okBadJson =
      .error ⟨500, "Error interno del servidor de autenticación", []⟩) :=
  ⟨fun _ => rfl, rfl, fun _ => rfl, rfl⟩

/-- C1 (divergence witness). The three read endpoints do reject an
authenticated owner-type user with HTTP 403, but the create endpoint does
not: its dependency `get_current_user_id_clinic` performs no clinic check,
so the same owner-type user creates a solicitud successfully (HTTP 201)
and the store is written with it. -/
theorem owner_user_create_divergence :
    get_all_solicitudes [] (some "owner") (.ok ownerProfile) =
      .error ⟨403, "Acceso denegado. Se requiere uno de los siguientes tipos: clinic", []⟩ ∧
    get_solicitudes_by_status [] ["Activa"] (some "owner") (.ok ownerProfile)
        none none none none none =
      .error ⟨403, "Acceso denegado. Se requiere uno de los siguientes tipos: clinic", []⟩ ∧
    get_solicitud_by_id [] "a1b2c3" (some "owner") (.ok ownerProfile) =
      .error ⟨403, "Acceso denegado. Se requiere uno de los siguientes tipos: clinic", []⟩ ∧
    create_solicitud [] (some "owner") (.ok ownerProfile) sampleForm (.ok ())
        none "a1b2c3" "2025-01-01T00:00:00" =
      (.ok sampleCreated, [("owner_1", sampleCreated)]) :=
  ⟨rfl, rfl, rfl, rfl⟩

/-- C3. Every solicitud the create endpoint accepts is stored with status
"Activa", whatever the form inputs, validation verdict, photo, header and
auth outcome were. -/
theorem created_estado_always_activa :
    ∀ (db : DB) (user_type? : Option String) (call : AuthCallOutcome)
      (form : SolicitudForm) (validation : Except (List String) Unit)
      (foto? : Option UploadOutcome) (solicitud_id now : String)
      (sol : Solicitud) (db2 : DB),
      create_solicitud db user_type? call form validation foto? solicitud_id now =
        (.ok sol, db2) →
      sol.estado = "Activa" := by
  intro db ut call form validation foto? sid now sol db2 h
  unfold create_solicitud at h
  split at h
  · simp at h
  · split at h
    · simp at h
    · split at h
      · simp at h
      · simp only [create_solicitud_with_owner, Prod.mk.injEq, Except.ok.injEq] at h
        obtain ⟨h1, _⟩ := h
        subst h1
        rfl

/-- C3 witness: the property at a concrete accepted request. -/
theorem created_estado_always_activa_witness : sampleCreated.estado = "Activa" :=
  created_estado_always_activa [] (some "clinic") (.ok clinicProfile) sampleForm (.ok ())
    none "a1b2c3" "2025-01-01T00:00:00" sampleCreated [("user_123", sampleCreated)] rfl

/-- C7. When a file is supplied and the upload raises, the create endpoint
fails with HTTP 400 and the document store is left unchanged. -/
theorem image_upload_failure_400 :
    ∀ (db : DB) (user_type? : Option String) (call : AuthCallOutcome)
      (uid : String) (form : SolicitudForm) (msg : String) (solicitud_id now : String),
      get_current_user_id_clinic user_type? call = .ok uid →
      create_solicitud db user_type? call form (.ok ()) (some (.err msg)) solicitud_id now =
        (.error ⟨400, "Error al subir la imagen: " ++ msg, []⟩, db) := by
  intro db ut call uid form msg sid now h
  unfold create_solicitud
  rw [h]

/-- C7 witness: a concrete failing upload yields the 400 and the unchanged
(empty) store. -/
theorem image_upload_failure_400_witness :
    create_solicitud [] (some "clinic") (.ok clinicProfile) sampleForm (.ok ())
        (some (.err "boom")) "a1b2c3" "2025-01-01T00:00:00" =
      (.error ⟨400, "Error al subir la imagen: boom", []⟩, []) :=
  image_upload_failure_400 [] (some "clinic") (.ok clinicProfile) "user_123" sampleForm
    "boom" "a1b2c3" "2025-01-01T00:00:00" rfl

/-- C4. An `estado` query value that is nonempty after stripping and whose
title-cased form is not a permitted status makes the filter endpoint fail
with HTTP 422 carrying the validation error; the result is the same for
every store content, so no store query is consulted. -/
theorem invalid_estado_rejected_422 :
    ∀ (db : DB) (ESTADOS_PERMITIDOS : List String) (user_type? : Option String)
      (call : AuthCallOutcome) (u : AuthenticatedUser) (estado : String)
      (especie? tipo_sangre? urgencia? localidad? : Option String),
      get_current_user_clinic user_type? call = .ok u →
      pyStrip estado ≠ "" →
      pyTitle estado ∉ ESTADOS_PERMITIDOS →
      get_solicitudes_by_status db ESTADOS_PERMITIDOS user_type? call
          (some estado) especie? tipo_sangre? urgencia? localidad? =
        .error ⟨422, "Error de validación en los parámetros de filtro",
          ["estado: Estado inválido. Los estados válidos son: " ++
            String.intercalate ", " ESTADOS_PERMITIDOS]⟩ := by
  intro db E ut call u estado esp ts urg loc hAuth hStrip hMem
  have hNe : estado ≠ "" := by
    intro he
    exact hStrip (by rw [he]; rfl)
  unfold get_solicitudes_by_status
  rw [hAuth]
  simp only [if_pos (And.intro hNe hStrip), if_neg hMem, ne_eq, List.cons_ne_nil,
    not_false_eq_true, if_pos]

/-- C4 witness: a concrete invalid status is rejected with the 422. -/
theorem invalid_estado_rejected_422_witness :
    get_solicitudes_by_status [] ["Activa"] (some "clinic") (.ok clinicProfile)
        (some "Rechazada") none none none none =
      .error ⟨422, "Error de validación en los parámetros de filtro",
        ["estado: Estado inválido. Los estados válidos son: Activa"]⟩ :=
  invalid_estado_rejected_422 [] ["Activa"] (some "clinic") (.ok clinicProfile)
    ⟨"user_123", "vet@example.com", "clinic"⟩ "Rechazada" none none none none
    rfl (by decide) (by decide)

/-- C5. Past the clinic dependency, the get-by-id endpoint answers 404
"Solicitud no encontrada" exactly when the lookup by (solicitud id,
authenticated user id) yields nothing, and returns the found solicitud
unchanged otherwise. -/
theorem get_by_id_404_iff_not_found :
    ∀ (db : DB) (solicitud_id : String) (user_type? : Option String)
      (call : AuthCallOutcome) (u : AuthenticatedUser),
      get_current_user_clinic user_type? call = .ok u →
      ((get_solicitud_by_id db solicitud_id user_type? call =
          .error ⟨404, "Solicitud no encontrada", []⟩ ↔
        get_solicitud_by_id_and_owner db solicitud_id u.id = none) ∧
       ∀ s, get_solicitud_by_id_and_owner db solicitud_id u.id = some s →
         get_solicitud_by_id db solicitud_id user_type? call = .ok s) := by
  intro db sid ut call u h
  unfold get_solicitud_by_id
  rw [h]
  simp only []
  refine ⟨⟨fun h404 => ?_, fun hnone => by rw [hnone]⟩, fun s hs => by rw [hs]⟩
  cases hl : get_solicitud_by_id_and_owner db sid u.id with
  | none => rfl
  | some s => rw [hl] at h404; exact Except.noConfusion h404

/-- C5 witness: the found case at a concrete store. -/
theorem get_by_id_404_iff_not_found_witness :
    get_solicitud_by_id [("user_123", sampleCreated)] "a1b2c3" (some "clinic")
        (.ok clinicProfile) = .ok sampleCreated :=
  (get_by_id_404_iff_not_found [("user_123", sampleCreated)] "a1b2c3" (some "clinic")
      (.ok clinicProfile) ⟨"user_123", "vet@example.com", "clinic"⟩ rfl).2
    sampleCreated rfl

/-- C10. `estado` is title-cased before validation and use ("activa" and
"ACTIVA" both become "Activa"); an empty or whitespace-only `estado`
behaves exactly like no `estado` at all; an accepted `estado` reaches the
store in its normalized form; and an absent status filter imposes no
constraint on the stored status (only the other filters apply), so
solicitudes of every status are returned. -/
theorem estado_filter_normalization :
    (pyTitle "activa" = "Activa" ∧ pyTitle "ACTIVA" = "Activa") ∧
    (∀ (db : DB) (E : List String) (ut : Option String) (call : AuthCallOutcome)
      (esp ts urg loc : Option String) (estado : String), pyStrip estado = "" →
      get_solicitudes_by_status db E ut call (some estado) esp ts urg loc =
        get_solicitudes_by_status db E ut call none esp ts urg loc) ∧
    (∀ (db : DB) (E : List String) (ut : Option String) (call : AuthCallOutcome)
      (u : AuthenticatedUser) (estado : String) (esp ts urg loc : Option String),
      get_current_user_clinic ut call = .ok u →
      pyStrip estado ≠ "" → pyTitle estado ∈ E →
      get_solicitudes_by_status db E ut call (some estado) esp ts urg loc =
        .ok (filter_solicitudes_by_owner_and_status db u.id (some (pyTitle estado))
          esp ts urg loc)) ∧
    (∀ (db : DB) (owner : String) (esp ts urg loc : Option String),
      filter_solicitudes_by_owner_and_status db owner none esp ts urg loc =
        (get_solicitudes_by_owner db owner).filter (fun s =>
          matchesFilter s.especie esp && matchesFilter s.tipo_sangre ts &&
          matchesFilter s.urgencia urg && matchesFilter s.localidad loc)) := by
  refine ⟨⟨by decide, by decide⟩, ?_, ?_, ?_⟩
  · intro db E ut call esp ts urg loc estado hStrip
    have hcond : ¬(estado ≠ "" ∧ pyStrip estado ≠ "") := fun hc => hc.2 hStrip
    unfold get_solicitudes_by_status
    cases hA : get_current_user_clinic ut call with
    | error e => rfl
    | ok u => simp only [if_neg hcond]
  · intro db E ut call u estado esp ts urg loc hAuth hStrip hMem
    have hNe : estado ≠ "" := by
      intro he
      exact hStrip (by rw [he]; rfl)
    unfold get_solicitudes_by_status
    rw [hAuth]
    simp only [if_pos (And.intro hNe hStrip), if_pos hMem, ne_eq,
      not_true_eq_false, if_false]
  · intro db owner esp ts urg loc
    unfold filter_solicitudes_by_owner_and_status
    simp only [Bool.true_and]

/-- C10 witness: a lowercase status is accepted as its title-cased form
and reaches the store normalized; a whitespace-only status filters
nothing. -/
theorem estado_filter_normalization_witness :
    get_solicitudes_by_status [("user_123", sampleCreated)] ["Activa"] (some "clinic")
        (.ok clinicProfile) (some "activa") none none none none = .ok [sampleCreated] ∧
    get_solicitudes_by_status [("user_123", sampleCreated)] ["Activa"] (some "clinic")
        (.ok clinicProfile) (some "   ") none none none none =
      get_solicitudes_by_status [("user_123", sampleCreated)] ["Activa"] (some "clinic")
        (.ok clinicProfile) none none none none none := by
  constructor
  · exact (estado_filter_normalization.2.2.1 [("user_123", sampleCreated)] ["Activa"]
      (some "clinic") (.ok clinicProfile) ⟨"user_123", "vet@example.com", "clinic"⟩
      "activa" none none none none rfl (by decide) (by decide)).trans rfl
  · exact estado_filter_normalization.2.1 [("user_123", sampleCreated)] ["Activa"]
      (some "clinic") (.ok clinicProfile) none none none none "   " (by decide)

/-- C6. Every store access the vet endpoints make uses the authenticated
user's own identifier as the owner argument: the list endpoint returns
exactly the owner query at the user's id; a successful filter returns an
owner-and-filters query at the user's id; a solicitud returned by
get-by-id is the (id, user id) lookup result; and a successful create
appends the new solicitud to the store associated to the authenticated
user's id. -/
theorem store_accessed_with_own_id :
    (∀ (db : DB) (ut : Option String) (call : AuthCallOutcome) (u : AuthenticatedUser),
      get_current_user_clinic ut call = .ok u →
      get_all_solicitudes db ut call = .ok (get_solicitudes_by_owner db u.id)) ∧
    (∀ (db : DB) (E : List String) (ut : Option String) (call : AuthCallOutcome)
      (u : AuthenticatedUser) (e? esp ts urg loc : Option String) (r : List Solicitud),
      get_current_user_clinic ut call = .ok u →
      get_solicitudes_by_status db E ut call e? esp ts urg loc = .ok r →
      ∃ e2?, r = filter_solicitudes_by_owner_and_status db u.id e2? esp ts urg loc) ∧
    (∀ (db : DB) (sid : String) (ut : Option String) (call : AuthCallOutcome)
      (u : AuthenticatedUser) (s : Solicitud),
      get_current_user_clinic ut call = .ok u →
      get_solicitud_by_id db sid ut call = .ok s →
      get_solicitud_by_id_and_owner db sid u.id = some s) ∧
    (∀ (db : DB) (ut : Option String) (call : AuthCallOutcome) (uid : String)
      (form : SolicitudForm) (validation : Except (List String) Unit)
      (foto? : Option UploadOutcome) (sid now : String) (sol : Solicitud) (db2 : DB),
      get_current_user_id_clinic ut call = .ok uid →
      create_solicitud db ut call form validation foto? sid now = (.ok sol, db2) →
      db2 = db ++ [(uid, sol)]) := by
  refine ⟨?_, ?_, ?_, ?_⟩
  · intro db ut call u h
    unfold get_all_solicitudes
    rw [h]
  · intro db E ut call u e? esp ts urg loc r hAuth h
    unfold get_solicitudes_by_status at h
    rw [hAuth] at h
    simp only [] at h
    split at h
    · exact Except.noConfusion h
    · cases h
      exact ⟨_, rfl⟩
  · intro db sid ut call u s hAuth h
    unfold get_solicitud_by_id at h
    rw [hAuth] at h
    simp only [] at h
    split at h
    · exact Except.noConfusion h
    · next s2 hl => cases h; exact hl
  · intro db ut call uid form validation foto? sid now sol db2 hAuth h
    unfold create_solicitud at h
    rw [hAuth] at h
    simp only [] at h
    split at h
    · simp at h
    · split at h
      · simp at h
      · simp only [create_solicitud_with_owner, Prod.mk.injEq, Except.ok.injEq] at h
        obtain ⟨h1, h2⟩ := h
        subst h1
        exact h2.symm

/-- C6 witness: the list endpoint at a concrete store and clinic user. -/
theorem store_accessed_with_own_id_witness :
    get_all_solicitudes [("user_123", sampleCreated)] (some "clinic") (.ok clinicProfile) =
      .ok [sampleCreated] :=
  store_accessed_with_own_id.1 [("user_123", sampleCreated)] (some "clinic")
    (.ok clinicProfile) ⟨"user_123", "vet@example.com", "clinic"⟩ rfl

end SolicitudesService
